import Mathlib

/-!
Verification development for the Cyber-Twin SOC backend
(`cybertwin-backend/app`).  The Python services are shallowly embedded:
strings are lists of characters, Python floats are modelled as exact
rationals, database rows are Lean structures, HTTP handlers are pure
functions returning `Except`, and the nondeterministic environment
(subprocess results, clock, generated UUIDs) is passed in explicitly.
-/

namespace CyberTwin

/-- Python strings are modelled as lists of characters. -/
abbrev Str := List Char

/-- ASCII whitespace recognised by Python `str.strip` / regex `\s`
(the logs handled by the services are ASCII). -/
def isPySpace (c : Char) : Bool :=
  c = ' ' || c = '\t' || c = '\n' || c = '\r' || c = '\x0b' || c = '\x0c'

/-- ASCII lower-casing of one character (Python `str.lower` on ASCII data). -/
def lowerChar (c : Char) : Char :=
  if 'A' ≤ c ∧ c ≤ 'Z' then Char.ofNat (c.toNat + 32) else c

/-- ASCII upper-casing of one character (Python `str.upper` on ASCII data). -/
def upperChar (c : Char) : Char :=
  if 'a' ≤ c ∧ c ≤ 'z' then Char.ofNat (c.toNat - 32) else c

/-- Python `str.lower`. -/
def pyLower (s : Str) : Str := s.map lowerChar

/-- Python `str.upper`. -/
def pyUpper (s : Str) : Str := s.map upperChar

/-- Strip trailing whitespace (Python `str.rstrip`). -/
def rstrip (s : Str) : Str := (s.reverse.dropWhile isPySpace).reverse

/-- Python `str.strip`: drop leading and trailing whitespace. -/
def pyStrip (s : Str) : Str := rstrip (s.dropWhile isPySpace)

/-- Python substring test (`needle in hay`). -/
def containsSub (hay needle : Str) : Bool :=
  (List.range (hay.length + 1)).any (fun i => needle.isPrefixOf (hay.drop i))

/-- Python `int` on a string of decimal digits. -/
def natOfDigits (s : Str) : Nat :=
  s.foldl (fun acc c => acc * 10 + (c.toNat - '0'.toNat)) 0

/-- Decimal rendering of one digit value (0–9). -/
def digitChar (n : Nat) : Char := Char.ofNat ('0'.toNat + n)

/-- Decimal rendering of a natural number, fuelled so that it is
structurally recursive (Python `str(n)` / f-string interpolation). -/
def natToStrAux : Nat → Nat → Str
  | 0, _ => []
  | fuel + 1, n => if n < 10 then [digitChar n]
                   else natToStrAux fuel (n / 10) ++ [digitChar (n % 10)]

def natToStr (n : Nat) : Str := natToStrAux (n + 1) n

/-! ## Execution Engine (`app/services/execution_engine.py`) -/

/-- `_COMMAND_ALLOWLIST`: only commands starting with one of these prefixes
can ever execute. -/
def _COMMAND_ALLOWLIST : List Str :=
  [ "netsh advfirewall firewall".data,
    "iptables -A".data,
    "iptables -I".data,
    "firewall-cmd".data,
    "nmap ".data,
    "taskkill /pid".data ]

/-- `_is_allowed`: check the trimmed, lower-cased command against the
allow-list prefixes. -/
def _is_allowed (command : Str) : Bool :=
  let lower := pyLower (pyStrip command)
  _COMMAND_ALLOWLIST.any (fun p => (pyLower p).isPrefixOf lower)

/-- `ExecutionResult` dataclass; `executed_at` is a timestamp (modelled as
an abstract tick supplied by the caller). -/
structure ExecutionResult where
  success : Bool
  simulated : Bool
  output : Str
  executed_at : Nat
  deriving DecidableEq, Repr

/-- Outcome of the real-execution branch (subprocess exit, timeout or
spawn error): the OS is an oracle supplying the observed success flag and
captured output. -/
structure OsRun where
  success : Bool
  output : Str
  deriving DecidableEq, Repr

/-- `execute_action(command, simulated)`.  The extra `Bool` component
records whether a subprocess was spawned (the only branch with a side
effect on the host). -/
def execute_action (os : OsRun) (now : Nat) (command : Str) (simulated : Bool) :
    ExecutionResult × Bool :=
  if ¬ _is_allowed command then
    ({ success := false, simulated := simulated,
       output := "[Execution] BLOCKED: command not in allowlist: ".data
                   ++ command.take 80,
       executed_at := now }, false)
  else if simulated then
    ({ success := true, simulated := true,
       output := "[SIMULATION] Would execute: ".data ++ command
                   ++ "\n[SIMULATION] No changes were made to the host system.\n[SIMULATION] Set ALLOW_REAL_EXECUTION=true in .env to enable real execution.".data,
       executed_at := now }, false)
  else
    ({ success := os.success, simulated := false, output := os.output,
       executed_at := now }, true)

/-! ## A small backtracking regex engine

The services use `re.search`/`re.findall` with a handful of fixed
patterns.  We embed exactly the constructs those patterns need, with
Python's leftmost search and backtracking preference order (alternatives
of `?` in declared order, greedy repetition longest first, lazy
repetition shortest first).  Repetitions only ever wrap single-character
classes in these patterns, which keeps the matcher structurally
recursive. -/

/-- Regex abstract syntax.  `opt r lazy` is `r?` (lazy variant `r??`);
`starCls p lazy` is `[p]*` / `[p]*?`; `group i r` is the `i`-th capturing
group (numbered as Python numbers them). -/
inductive RE where
  | eps : RE
  | chr : Char → RE
  | cls : (Char → Bool) → RE
  | seq : RE → RE → RE
  | opt : RE → Bool → RE
  | starCls : (Char → Bool) → Bool → RE
  | group : Nat → RE → RE

/-- Captured groups: association list from group number to captured text;
the most recent binding (head) wins. -/
abbrev Caps := List (Nat × Str)

/-- CPS backtracking matcher.  `mmatch r s caps k` tries to match `r` at
the start of `s`, invoking the continuation `k` on the remaining input
and extended captures for every alternative, in Python's preference
order; the first alternative on which `k` succeeds wins. -/
def mmatch : RE → Str → Caps → (Str → Caps → Option (Str × Caps)) →
    Option (Str × Caps)
  | .eps, s, caps, k => k s caps
  | .chr c, s, caps, k =>
      match s with
      | [] => none
      | x :: rest => if x = c then k rest caps else none
  | .cls p, s, caps, k =>
      match s with
      | [] => none
      | x :: rest => if p x then k rest caps else none
  | .seq r₁ r₂, s, caps, k =>
      mmatch r₁ s caps (fun s' caps' => mmatch r₂ s' caps' k)
  | .opt r lzy, s, caps, k =>
      if lzy then (k s caps).orElse (fun _ => mmatch r s caps k)
      else (mmatch r s caps k).orElse (fun _ => k s caps)
  | .starCls p lzy, s, caps, k =>
      let run := (s.takeWhile p).length
      let order := if lzy then List.range (run + 1)
                   else (List.range (run + 1)).reverse
      order.findSome? (fun n => k (s.drop n) caps)
  | .group i r, s, caps, k =>
      mmatch r s caps (fun s' caps' =>
        k s' ((i, s.take (s.length - s'.length)) :: caps'))

/-- Python `re.search`: try the pattern at offset 0, 1, … of `s`; return
`(suffix at match start, suffix after match, captures)` for the first
offset that matches. -/
def research (r : RE) (s : Str) : Option (Str × Str × Caps) :=
  match mmatch r s [] (fun s' caps => some (s', caps)) with
  | some (s', caps) => some (s, s', caps)
  | none =>
      match s with
      | [] => none
      | _ :: rest => research r rest

/-- `m.group(i)`: text of capturing group `i`, `none` if it did not
participate in the match. -/
def capStr (caps : Caps) (i : Nat) : Option Str := caps.lookup i

/-- Python `re.findall` for a pattern with exactly one capturing group:
repeatedly search, collect group 1, and continue after each match
(advancing one character after a zero-width match). -/
def findallAux (r : RE) : Nat → Str → List Str
  | 0, _ => []
  | fuel + 1, s =>
      match research r s with
      | none => []
      | some (at_, after, caps) =>
          (capStr caps 1).getD [] ::
            (if after.length < at_.length then findallAux r fuel after
             else findallAux r fuel (after.drop 1))

def findall (r : RE) (s : Str) : List Str := findallAux r (s.length + 1) s

/-- Sequence a list of regexes. -/
def reSeq (l : List RE) : RE := l.foldr .seq .eps

/-- Literal string regex. -/
def reLit (s : Str) : RE := reSeq (s.map .chr)

/-- `\d`. -/
def reDigit : Char → Bool := Char.isDigit
/-- `[\d.]`. -/
def reDigitDot (c : Char) : Bool := c.isDigit || c = '.'
/-- `.` under `re.DOTALL`. -/
def reAny (_ : Char) : Bool := true

/-- `p+` (greedy) / `p+?` (lazy) over a character class. -/
def rePlus (p : Char → Bool) (lzy : Bool) : RE := .seq (.cls p) (.starCls p lzy)

/-! ## Log parser (`app/services/log_parser.py`) -/

/-- `_RE_SNORT_FAST` (compiled with `re.DOTALL`):
`\[\*\*\]\s+\[\d+:\d+:\d+\]\s+(?P<title>.+?)\s+\[\*\*\]`
`.*?Priority:\s*(?P<priority>\d)`
`.*?(?P<src>[\d.]+)(?::(?P<sport>\d+))?\s+->\s+(?P<dst>[\d.]+)(?::(?P<dport>\d+))?`
Groups: 1 title, 2 priority, 3 src, 4 sport, 5 dst, 6 dport. -/
def reSnortFast : RE := reSeq
  [ reLit "[**]".data, rePlus isPySpace false,
    .chr '[', rePlus reDigit false, .chr ':', rePlus reDigit false,
    .chr ':', rePlus reDigit false, .chr ']', rePlus isPySpace false,
    .group 1 (rePlus reAny true), rePlus isPySpace false, reLit "[**]".data,
    .starCls reAny true, reLit "Priority:".data, .starCls isPySpace false,
    .group 2 (.cls reDigit),
    .starCls reAny true, .group 3 (rePlus reDigitDot false),
    .opt (.seq (.chr ':') (.group 4 (rePlus reDigit false))) false,
    rePlus isPySpace false, reLit "->".data, rePlus isPySpace false,
    .group 5 (rePlus reDigitDot false),
    .opt (.seq (.chr ':') (.group 6 (rePlus reDigit false))) false ]

/-- `_RE_OSSEC` (compiled with `re.DOTALL`):
`Rule:\s*\d+\s+\(level\s+(?P<level>\d+)\)\s+->\s+'(?P<title>[^']+)'`
`(?:.*?Src IP:\s*(?P<src>[\d.]+))?`
Groups: 1 level, 2 title, 3 src. -/
def reOssec : RE := reSeq
  [ reLit "Rule:".data, .starCls isPySpace false, rePlus reDigit false,
    rePlus isPySpace false, .chr '(', reLit "level".data,
    rePlus isPySpace false, .group 1 (rePlus reDigit false), .chr ')',
    rePlus isPySpace false, reLit "->".data, rePlus isPySpace false,
    .chr (Char.ofNat 39),
    .group 2 (rePlus (fun c => c ≠ Char.ofNat 39) false),
    .chr (Char.ofNat 39),
    .opt (reSeq [ .starCls reAny true, reLit "Src IP:".data,
                  .starCls isPySpace false,
                  .group 3 (rePlus reDigitDot false) ]) false ]

/-- `\d{1,3}` (greedy bounded repetition, desugared). -/
def reD13 : RE :=
  .seq (.cls reDigit) (.opt (.seq (.cls reDigit) (.opt (.cls reDigit) false)) false)

/-- `_RE_IP`: `(\d{1,3}(?:\.\d{1,3}){3})`. -/
def reIP : RE :=
  .group 1 (reSeq [ reD13, .chr '.', reD13, .chr '.', reD13, .chr '.', reD13 ])

/-- `\d{2,5}` (greedy bounded repetition, desugared). -/
def reD25 : RE :=
  reSeq [ .cls reDigit, .cls reDigit,
    .opt (.seq (.cls reDigit)
      (.opt (.seq (.cls reDigit) (.opt (.cls reDigit) false)) false)) false ]

/-- `_RE_PORT`: `:(\d{2,5})`. -/
def rePort : RE := .seq (.chr ':') (.group 1 reD25)

/-- `IncidentEvent` dataclass.  The fresh `id` (uuid4) and the UTC
`timestamp` are generated by the environment and are not modelled. -/
structure IncidentEvent where
  source : Str
  severity : Str
  title : Str
  raw_log : Str
  src_ip : Option Str
  dst_ip : Option Str
  port : Option Nat
  protocol : Option Str
  deriving DecidableEq, Repr

/-- `_SNORT_PRIORITY_MAP = {1: CRITICAL, 2: HIGH, 3: MEDIUM, 4: LOW}`. -/
def _SNORT_PRIORITY_MAP : List (Nat × Str) :=
  [(1, "CRITICAL".data), (2, "HIGH".data), (3, "MEDIUM".data), (4, "LOW".data)]

/-- `_KEYWORD_SEVERITY`, in Python dict insertion order. -/
def _KEYWORD_SEVERITY : List (Str × Str) :=
  [ ("critical".data, "CRITICAL".data), ("exploit".data, "CRITICAL".data),
    ("shellcode".data, "CRITICAL".data), ("rootkit".data, "CRITICAL".data),
    ("ransomware".data, "CRITICAL".data),
    ("attack".data, "HIGH".data), ("brute".data, "HIGH".data),
    ("scan".data, "MEDIUM".data), ("probe".data, "MEDIUM".data),
    ("dos".data, "HIGH".data), ("ddos".data, "HIGH".data),
    ("suspicious".data, "MEDIUM".data), ("injection".data, "HIGH".data),
    ("overflow".data, "HIGH".data),
    ("recon".data, "LOW".data), ("info".data, "INFO".data) ]

def _ossec_level_to_severity (level : Nat) : Str :=
  if 12 ≤ level then "CRITICAL".data
  else if 8 ≤ level then "HIGH".data
  else if 5 ≤ level then "MEDIUM".data
  else if 3 ≤ level then "LOW".data
  else "INFO".data

/-- `_keywords_severity`: first keyword contained in the lower-cased text
wins; fall back to INFO. -/
def _keywords_severity (text : Str) : Str :=
  let lower := pyLower text
  match _KEYWORD_SEVERITY.find? (fun kv => containsSub lower kv.1) with
  | some kv => kv.2
  | none => "INFO".data

/-- `_extract_ips`: first two matches of `_RE_IP`. -/
def _extract_ips (text : Str) : Option Str × Option Str :=
  let ips := findall reIP text
  (ips.get? 0, ips.get? 1)

/-- `_extract_port`: first `_RE_PORT` match, kept only when `< 65536`. -/
def _extract_port (text : Str) : Option Nat :=
  match research rePort text with
  | some (_, _, caps) =>
      let p := natOfDigits ((capStr caps 1).getD [])
      if p < 65536 then some p else none
  | none => none

/-- `parse_log_line(raw, source_hint)`. -/
def parse_log_line (raw0 : Str) (source_hint : Str) : IncidentEvent :=
  let raw := pyStrip raw0
  match research reSnortFast raw with
  | some (_, _, caps) =>
      let dport := capStr caps 6
      { source := "snort".data
        severity :=
          (_SNORT_PRIORITY_MAP.lookup (natOfDigits ((capStr caps 2).getD []))).getD
            "INFO".data
        title := pyStrip ((capStr caps 1).getD [])
        raw_log := raw
        src_ip := capStr caps 3
        dst_ip := capStr caps 5
        port := match dport with
                | some d => if d ≠ [] then some (natOfDigits d) else none
                | none => none
        protocol := none }
  | none =>
  match research reOssec raw with
  | some (_, _, caps) =>
      { source := "ossec".data
        severity := _ossec_level_to_severity (natOfDigits ((capStr caps 1).getD []))
        title := pyStrip ((capStr caps 2).getD [])
        raw_log := raw
        src_ip := match capStr caps 3 with
                  | some s => if s ≠ [] then some s else none
                  | none => none
        dst_ip := none
        port := none
        protocol := none }
  | none =>
      let ips := _extract_ips raw
      { source := source_hint
        severity := _keywords_severity raw
        title := (raw.takeWhile (fun c => c ≠ '\n')).take 120
        raw_log := raw
        src_ip := ips.1
        dst_ip := ips.2
        port := _extract_port raw
        protocol := none }

/-! ## MITRE ATT&CK classifier (`app/services/mitre_service.py`)

The technique corpus is loaded from disk at startup (STIX bundle or the
bundled JSON); `classify` is parameterised by the loaded corpus. -/

/-- One loaded technique (`{id, name, tactic, description, keywords}`). -/
structure Technique where
  id : Str
  name : Str
  tactic : Str
  description : Str
  keywords : List Str
  deriving DecidableEq, Repr

/-- `MitreMatch` dataclass; `confidence` models the Python float as an
exact rational. -/
structure MitreMatch where
  technique_id : Str
  technique_name : Str
  tactic : Str
  description : Str
  confidence : ℚ
  deriving DecidableEq, Repr

/-- Python word character for `\b` (ASCII `\w`). -/
def isWordChar (c : Char) : Bool := c.isAlphanum || c = '_'

/-- Whether position `i` of `t` is a `\b` word boundary. -/
def wordBoundaryAt (t : Str) (i : Nat) : Bool :=
  (if i = 0 then false
   else match t.get? (i - 1) with
        | some c => isWordChar c
        | none => false)
  != (match t.get? i with
      | some c => isWordChar c
      | none => false)

/-- `re.search(rf"\b{re.escape(kw)}\b", text) is not None`: the keyword
occurs somewhere in `text` between word boundaries. -/
def wbOccurs (kw : Str) (t : Str) : Bool :=
  (List.range (t.length + 1)).any (fun i =>
    kw.isPrefixOf (t.drop i) && wordBoundaryAt t i
      && wordBoundaryAt t (i + kw.length))

/-- `hits`: number of keywords found (word-boundary contained) in the
lower-cased text. -/
def techHits (t : Technique) (lower : Str) : Nat :=
  t.keywords.countP (fun kw => wbOccurs kw lower)

/-- `score = min(hits / max(len(keywords) * 0.4, 1), 1.0)`. -/
def techScore (t : Technique) (lower : Str) : ℚ :=
  min ((techHits t lower : ℚ) / max ((t.keywords.length : ℚ) * (2/5)) 1) 1

/-- Python `round` (banker's rounding) of a rational to an integer. -/
def rndHalfEven (q : ℚ) : ℤ :=
  if q - ⌊q⌋ < 1/2 then ⌊q⌋
  else if 1/2 < q - ⌊q⌋ then ⌊q⌋ + 1
  else if ⌊q⌋ % 2 = 0 then ⌊q⌋ else ⌊q⌋ + 1

/-- Python `round(q, ndigits)` on the rational model. -/
def pyRound (q : ℚ) (ndigits : Nat) : ℚ :=
  (rndHalfEven (q * 10 ^ ndigits) : ℚ) / 10 ^ ndigits

/-- Loop body of `classify`: fold state is `(best_score, best_match)`. -/
def classifyStep (lower : Str) (acc : ℚ × Option Technique) (t : Technique) :
    ℚ × Option Technique :=
  if t.keywords = [] then acc
  else if techHits t lower = 0 then acc
  else if acc.1 < techScore t lower then (techScore t lower, some t)
  else acc

/-- `classify(text)`: best keyword-overlap technique, if its score
reaches the 0.15 threshold; `confidence = round(best_score, 3)`. -/
def classify (techniques : List Technique) (text : Str) : Option MitreMatch :=
  if text = [] ∨ techniques = [] then none
  else
    let lower := pyLower text
    let best := techniques.foldl (classifyStep lower) (0, none)
    match best.2 with
    | some bm =>
        if 3/20 ≤ best.1 then
          some { technique_id := bm.id, technique_name := bm.name,
                 tactic := bm.tactic, description := bm.description,
                 confidence := pyRound best.1 3 }
        else none
    | none => none

/-! ## Risk scorer (`app/services/risk_scorer.py`) -/

/-- `_SEVERITY_BASE`. -/
def _SEVERITY_BASE : List (Str × ℚ) :=
  [ ("CRITICAL".data, 10), ("HIGH".data, 15/2), ("MEDIUM".data, 5),
    ("LOW".data, 5/2), ("INFO".data, 1/2) ]

/-- `_SOURCE_RELIABILITY`. -/
def _SOURCE_RELIABILITY : List (Str × ℚ) :=
  [ ("snort".data, 9/10), ("ossec".data, 17/20), ("firewall".data, 3/4),
    ("simulator".data, 3/5), ("manual".data, 1/2), ("unknown".data, 2/5) ]

/-- Python `dict.get(key, default)`. -/
def dictGet (d : List (Str × ℚ)) (k : Str) (default : ℚ) : ℚ :=
  (d.lookup k).getD default

/-- `score(severity, source, mitre_match)`: weighted sum, clamped to
[0, 10], rounded to two decimals. -/
def score (severity source : Str) (mitre_match : Option MitreMatch) : ℚ :=
  let sev_base := dictGet _SEVERITY_BASE (pyUpper severity) 1
  let source_weight := dictGet _SOURCE_RELIABILITY (pyLower source) (2/5)
  let mitre_conf := match mitre_match with
                    | some m => m.confidence
                    | none => 0
  let raw := sev_base * (1/2) + mitre_conf * 10 * (3/10)
               + source_weight * 10 * (1/5)
  pyRound (min (max raw 0) 10) 2

/-- `score_label`: UI label for a numeric score. -/
def score_label (score_val : ℚ) : Str :=
  if 17/2 ≤ score_val then "CRITICAL".data
  else if 13/2 ≤ score_val then "HIGH".data
  else if 4 ≤ score_val then "MEDIUM".data
  else if 2 ≤ score_val then "LOW".data
  else "INFO".data

/-! ## Action generator (`app/services/action_generator.py`) -/

/-- JSON-able parameter value (`parameters` dicts hold strings and ints). -/
inductive PVal where
  | s : Str → PVal
  | n : Nat → PVal
  deriving DecidableEq, Repr

/-- `ProposedAction` dataclass. -/
structure ProposedAction where
  action_type : Str
  command : Str
  parameters : List (Str × PVal)
  reason : Str
  risk_level : Str
  mitre_context : Str
  deriving DecidableEq, Repr

def _block_ip (ip reason mitre : Str) : ProposedAction :=
  { action_type := "block_ip".data
    command := "netsh advfirewall firewall add rule name=\"CyberTwin-Block-".data
                 ++ ip ++ "\" dir=in action=block remoteip=".data ++ ip
    parameters := [("ip".data, .s ip), ("direction".data, .s "inbound".data)]
    reason := "Block inbound traffic from attacker IP ".data ++ ip ++ ". ".data
                ++ reason
    risk_level := "MEDIUM".data
    mitre_context := mitre }

def _add_firewall_rule (ip : Str) (port : Nat) (reason mitre : Str) :
    ProposedAction :=
  { action_type := "add_firewall_rule".data
    command := "netsh advfirewall firewall add rule name=\"CyberTwin-Port-".data
                 ++ natToStr port ++ "\" dir=in action=block remoteip=".data
                 ++ ip ++ " localport=".data ++ natToStr port
                 ++ " protocol=TCP".data
    parameters := [("ip".data, .s ip), ("port".data, .n port),
                   ("protocol".data, .s "TCP".data)]
    reason := "Block TCP port ".data ++ natToStr port ++ " from ".data ++ ip
                ++ ". ".data ++ reason
    risk_level := "MEDIUM".data
    mitre_context := mitre }

def _isolate_host (host_ip reason mitre : Str) : ProposedAction :=
  { action_type := "isolate_host".data
    command := "netsh advfirewall firewall add rule name=\"CyberTwin-Isolate-".data
                 ++ host_ip ++ "\" dir=in action=block remoteip=any localip=".data
                 ++ host_ip
    parameters := [("host_ip".data, .s host_ip),
                   ("scope".data, .s "all_traffic".data)]
    reason := "Network-isolate host ".data ++ host_ip
                ++ " pending investigation. ".data ++ reason
    risk_level := "HIGH".data
    mitre_context := mitre }

def _run_scan (target_ip reason mitre : Str) : ProposedAction :=
  { action_type := "run_scan".data
    command := "nmap -sV -O --top-ports 1000 ".data ++ target_ip
    parameters := [("target".data, .s target_ip),
                   ("type".data, .s "service_os_scan".data)]
    reason := "Run reconnaissance scan on ".data ++ target_ip
                ++ " to identify open services. ".data ++ reason
    risk_level := "LOW".data
    mitre_context := mitre }

/-- `_TACTIC_ACTIONS` dispatch (with `_DEFAULT_ACTIONS` fallback for keys
outside the table, including `None`). -/
def tacticActions (mitre_tactic : Option Str) (src_ip mitre : Str) :
    List ProposedAction :=
  if mitre_tactic = some "Reconnaissance".data then
    [ _block_ip src_ip "Attacker is actively scanning your network.".data mitre,
      _run_scan src_ip "Enumerate attacker\x27s exposed services.".data mitre ]
  else if mitre_tactic = some "Credential Access".data then
    [ _block_ip src_ip "Stop ongoing brute-force credential attacks.".data mitre,
      _add_firewall_rule src_ip 22 "Block SSH access from attacker.".data mitre ]
  else if mitre_tactic = some "Lateral Movement".data then
    [ _isolate_host src_ip "Prevent lateral spread across network.".data mitre,
      _block_ip src_ip "Cut off command & control channel.".data mitre ]
  else if mitre_tactic = some "Command and Control".data then
    [ _block_ip src_ip "Sever the C2 communication channel.".data mitre,
      _add_firewall_rule src_ip 443 "Block HTTPS C2 beaconing.".data mitre ]
  else if mitre_tactic = some "Exfiltration".data then
    [ _isolate_host src_ip "Prevent further data exfiltration.".data mitre,
      _block_ip src_ip "Block attacker contact with exfiltration endpoint.".data mitre ]
  else if mitre_tactic = some "Impact".data then
    [ _isolate_host src_ip "Contain ransomware/DoS impact radius.".data mitre,
      _block_ip src_ip "Block attacker\x27s DoS/ransomware traffic.".data mitre ]
  else if mitre_tactic = some "Execution".data then
    [ _block_ip src_ip "Block host executing malicious payloads.".data mitre,
      _run_scan src_ip "Enumerate attacker services and payload delivery infra.".data mitre ]
  else if mitre_tactic = some "Defense Evasion".data then
    [ _run_scan src_ip "Map attacker\x27s evasion infrastructure.".data mitre,
      _block_ip src_ip "Block evasive attacker IP.".data mitre ]
  else
    [ _block_ip src_ip "Generic block for unclassified threat.".data mitre ]

/-- Python truthiness of an optional string (`None` and `""` are falsy). -/
def optTruthy (s : Option Str) : Bool :=
  match s with
  | some v => v ≠ []
  | none => false

/-- f-string rendering of an optional value (`None` prints as "None"). -/
def strOfOpt (s : Option Str) : Str :=
  match s with
  | some v => v
  | none => "None".data

/-- `generate_actions(src_ip, severity, mitre_tactic, mitre_id,
mitre_technique)`. -/
def generate_actions (src_ip severity : Str) (mitre_tactic mitre_id
    mitre_technique : Option Str) : List ProposedAction :=
  if (severity = "INFO".data ∨ severity = "LOW".data) ∧ ¬ optTruthy mitre_tactic
  then []
  else if src_ip = [] ∨ src_ip = "0.0.0.0".data ∨ src_ip = "localhost".data
       ∨ src_ip = "127.0.0.1".data then []
  else
    let mitre_ctx :=
      if optTruthy mitre_id then
        "[".data ++ strOfOpt mitre_id ++ "] ".data ++ strOfOpt mitre_technique
      else "Unknown technique".data
    let actions := tacticActions mitre_tactic src_ip mitre_ctx
    match actions with
    | [] => actions
    | a :: rest =>
        if severity = "CRITICAL".data ∧ a.action_type ≠ "isolate_host".data then
          _isolate_host src_ip
            "CRITICAL severity — immediate isolation recommended.".data mitre_ctx
            :: a :: rest
        else a :: rest

/-! ## ActionLog model (`app/models/action_log.py`) -/

/-- One `action_logs` row.  Timestamps are abstract ticks; nullable
columns are `Option`. -/
structure ActionRow where
  id : Str
  incident_id : Option Str
  session_id : Option Str
  action_type : Str
  command : Str
  parameters : Option Str
  reason : Option Str
  status : Str
  simulated : Bool
  execution_output : Option Str
  reviewed_by : Option Str
  reject_reason : Option Str
  created_at : Nat
  reviewed_at : Option Nat
  executed_at : Option Nat
  deriving DecidableEq, Repr

/-- The exception the listener actually raises (CPython renders it as
`AttributeError: 'ColumnProperty' object has no attribute
'load_history'`). -/
def loadHistoryAttributeError : Str :=
  "AttributeError: \x27ColumnProperty\x27 object has no attribute \x27load_history\x27".data

/-- `_prevent_immutable_field_modification`, as the source has it: the
ORM `before_update` listener iterates `_IMMUTABLE_COLUMNS` and, for the
first column, evaluates `mapper.attrs[col_name].load_history()`.
`Mapper.attrs` is a namespace of `MapperProperty`/`ColumnProperty`
objects, and `load_history()` exists only on `AttributeState` (reached
via `inspect(target).attrs`), so this call raises `AttributeError`
unconditionally, before any history is examined; the guarded
`ValueError` branch — the documented intent of the listener — is
unreachable.  The `ActionRow` arguments reflect the listener's inputs
(loaded state and row being flushed); neither is ever inspected. -/
def _prevent_immutable_field_modification (_orig _target : ActionRow) :
    Except Str Unit :=
  .error loadHistoryAttributeError

/-- An UPDATE flush on a persisted ActionLog row: the `before_update`
listener fires first; only when it returns does the UPDATE proceed.
Since the listener always raises, every update is rejected. -/
def updateActionRow (orig target : ActionRow) : Except Str ActionRow :=
  match _prevent_immutable_field_modification orig target with
  | .error e => .error e
  | .ok _ => .ok target

/-- Persisted state after an attempted update: the raised exception
aborts the flush, leaving the original row in the database. -/
def applyUpdate (orig target : ActionRow) : ActionRow :=
  match updateActionRow orig target with
  | .ok r => r
  | .error _ => orig

/-! ## Actions router (`app/routers/actions.py`) -/

/-- One octet of a dotted-quad, as parsed by `ipaddress.ip_address`:
1–3 decimal digits, no leading zero (unless the octet is exactly "0"),
value ≤ 255. -/
def parseOctet (s : Str) : Option Nat :=
  if s = [] then none
  else if ¬ s.all Char.isDigit then none
  else if 3 < s.length then none
  else if 1 < s.length ∧ s.headD ' ' = '0' then none
  else if 255 < natOfDigits s then none
  else some (natOfDigits s)

/-- `ipaddress.ip_address` on a dotted-quad string (the only shape the
router ever passes in, since `src_ip` always comes from the
`\d{1,3}(\.\d{1,3}){3}` regex); a malformed quad raises `ValueError`,
modelled as `none`. -/
def parseIPv4 (s : Str) : Option (Nat × Nat × Nat × Nat) :=
  match (s.splitOn '.').map parseOctet with
  | [some a, some b, some c, some d] => some (a, b, c, d)
  | _ => none

/-- `_is_private_ip`: membership in `_PRIVATE_NETWORKS` (10.0.0.0/8,
172.16.0.0/12, 192.168.0.0/16, 127.0.0.0/8, 169.254.0.0/16, 0.0.0.0/8);
a parse failure is treated as private. -/
def _is_private_ip (ip : Str) : Bool :=
  match parseIPv4 ip with
  | none => true
  | some (a, b, _, _) =>
      a = 10 || (a = 172 && 16 ≤ b && b ≤ 31) || (a = 192 && b = 168)
        || a = 127 || (a = 169 && b = 254) || a = 0

/-- HTTP error (`HTTPException(status_code, detail)`). -/
structure HttpErr where
  code : Nat
  detail : Str
  deriving DecidableEq, Repr

/-- `IncidentLog` row fields read by the actions router.  `raw_log` is
nullable; `NULL` and `""` behave identically under the `or`-chain, so
both are modelled as `[]`. -/
structure IncidentRow where
  id : Str
  raw_log : Str
  title : Str
  severity : Str
  mitre_tactic : Option Str
  mitre_technique : Option Str
  deriving DecidableEq, Repr

/-- `incident.raw_log or incident.title or ""`. -/
def proposeText (incident : IncidentRow) : Str :=
  if incident.raw_log ≠ [] then incident.raw_log
  else if incident.title ≠ [] then incident.title
  else []

/-- `re.search(r"(\d{1,3}(?:\.\d{1,3}){3})", text)`, group 1. -/
def firstIPv4 (text : Str) : Option Str :=
  match research reIP text with
  | some (_, _, caps) => capStr caps 1
  | none => none

/-- Rendering of one JSON value (`json.dumps` on the flat parameter
dicts; keys and string values contain no characters needing escapes). -/
def pvalDump : PVal → Str
  | .s v => '"' :: v ++ ['"']
  | .n v => natToStr v

/-- `json.dumps(parameters)` with the default separators. -/
def jsonDumps (ps : List (Str × PVal)) : Str :=
  "\x7b".data
    ++ List.intercalate ", ".data
        (ps.map (fun kv => '"' :: kv.1 ++ "\": ".data ++ pvalDump kv.2))
    ++ "\x7d".data

/-- The 400 detail produced by the RFC1918 guard. -/
def privateIpDetail (src_ip : Option Str) : Str :=
  "Cannot generate firewall actions for private/reserved IP \x27".data
    ++ strOfOpt src_ip
    ++ "\x27. Threat actor IPs must be publicly routable addresses.".data

/-- `propose_actions`: look up the incident (404 if absent), extract the
first dotted quad from `raw_log or title`, run the RFC1918 guard (400),
then persist one pending `ActionLog` row per generated action.  The
generator is passed as a parameter so that its non-invocation on the
guard path is expressible; row `id`/`created_at` are DB-generated and
modelled as defaults. -/
def propose_actions (incident? : Option IncidentRow) (session_id : Option Str)
    (gen : Str → Str → Option Str → Option Str → Option Str →
      List ProposedAction) : Except HttpErr (List ActionRow) :=
  match incident? with
  | none => .error ⟨404, "Incident not found".data⟩
  | some incident =>
      let src_ip? := firstIPv4 (proposeText incident)
      if src_ip?.isNone || _is_private_ip (src_ip?.getD []) then
        .error ⟨400, privateIpDetail src_ip?⟩
      else
        let proposed := gen (src_ip?.getD []) incident.severity
          incident.mitre_tactic incident.mitre_technique none
        .ok (proposed.map (fun p =>
          { id := []
            incident_id := some incident.id
            session_id := session_id
            action_type := p.action_type
            command := p.command
            parameters := some (jsonDumps p.parameters)
            reason := some ("[".data ++ p.risk_level ++ "] ".data ++ p.reason)
            status := "pending".data
            simulated := true
            execution_output := none
            reviewed_by := none
            reject_reason := none
            created_at := 0
            reviewed_at := none
            executed_at := none }))

/-- `approve_action(action_id)`: 404 when the row is absent, 409 when its
status is not `pending`; otherwise run the execution engine with
`simulated = not ALLOW_REAL_EXECUTION`, write the outcome onto the row
and `await db.commit()`.  The commit's UPDATE flush fires the
`before_update` listener (`updateActionRow`); if the listener raises —
which it currently always does, see
`_prevent_immutable_field_modification` — the transaction rolls back,
the database keeps the original pending row, and the unhandled exception
surfaces to the client as a 500 (the model carries the exception text as
the detail).  Returns the HTTP result together with the row state left
in the database. -/
def approve_action (row? : Option ActionRow) (current_user : Str)
    (allowReal : Bool) (os : OsRun) (now : Nat) :
    Except HttpErr ActionRow × Option ActionRow :=
  match row? with
  | none => (.error ⟨404, "Action not found".data⟩, none)
  | some action =>
      if action.status ≠ "pending".data then
        (.error ⟨409, "Action is already \x27".data ++ action.status
            ++ "\x27 — only \x27pending\x27 actions can be approved".data⟩,
         some action)
      else
        let use_simulation := !allowReal
        let exec_result := (execute_action os now action.command use_simulation).1
        let updated :=
          { action with
            status := if exec_result.success then "executed".data
                      else "failed".data
            reviewed_by := some current_user
            reviewed_at := some now
            executed_at := some exec_result.executed_at
            simulated := exec_result.simulated
            execution_output := some exec_result.output }
        match updateActionRow action updated with
        | .error e => (.error ⟨500, e⟩, some action)
        | .ok r => (.ok r, some r)

/-- `reject_action(action_id)`: 404/409 as in `approve_action`; on a
pending action the handler writes `rejected` plus reviewer fields and
commits, with the commit's UPDATE flush going through the same
`before_update` listener. -/
def reject_action (row? : Option ActionRow) (current_user : Str)
    (reason : Str) (now : Nat) :
    Except HttpErr ActionRow × Option ActionRow :=
  match row? with
  | none => (.error ⟨404, "Action not found".data⟩, none)
  | some action =>
      if action.status ≠ "pending".data then
        (.error ⟨409, "Action is already \x27".data ++ action.status
            ++ "\x27 — only \x27pending\x27 actions can be rejected".data⟩,
         some action)
      else
        let updated :=
          { action with
            status := "rejected".data
            reviewed_by := some current_user
            reject_reason := some reason
            reviewed_at := some now }
        match updateActionRow action updated with
        | .error e => (.error ⟨500, e⟩, some action)
        | .ok r => (.ok r, some r)

/-! ## Theorems -/

/-- C1: any command that fails the allow-list check (after trimming and
lower-casing it does not start with an allow-listed prefix) yields, for
either value of the `simulated` flag and any subprocess oracle, a result
with `success = false` whose output contains "BLOCKED:", and spawns no
subprocess. -/
theorem execute_action_blocks_disallowed
    (os : OsRun) (now : Nat) (c : Str) (simulated : Bool)
    (h : _is_allowed c = false) :
    (execute_action os now c simulated).1.success = false ∧
    (∃ a b, (execute_action os now c simulated).1.output
        = a ++ "BLOCKED:".data ++ b) ∧
    (execute_action os now c simulated).2 = false := by
  have hsplit : "[Execution] BLOCKED: command not in allowlist: ".data
      = "[Execution] ".data ++ ("BLOCKED:".data
          ++ " command not in allowlist: ".data) := by decide
  unfold execute_action
  rw [if_pos (by simp [h])]
  refine ⟨rfl, ⟨"[Execution] ".data,
    " command not in allowlist: ".data ++ c.take 80, ?_⟩, rfl⟩
  rw [hsplit]
  simp [List.append_assoc]

/-- C1 witness: `execute("rm -rf /", simulated=false)` is blocked. -/
theorem execute_action_blocks_disallowed_witness :
    _is_allowed "rm -rf /".data = false ∧
    ((execute_action ⟨true, []⟩ 0 "rm -rf /".data false).1.success = false ∧
     (∃ a b, (execute_action ⟨true, []⟩ 0 "rm -rf /".data false).1.output
        = a ++ "BLOCKED:".data ++ b) ∧
     (execute_action ⟨true, []⟩ 0 "rm -rf /".data false).2 = false) :=
  ⟨by decide,
   execute_action_blocks_disallowed ⟨true, []⟩ 0 "rm -rf /".data false (by decide)⟩

/-- C2 (code bug): the immutability listener calls `load_history()` on a
`ColumnProperty` (via `mapper.attrs`), a method that object does not
have, so EVERY update of a persisted ActionLog row — including one
touching none of `created_at`/`command`/`action_type` — raises
`AttributeError` and aborts with the original row left in place.  The
claim's rejection of immutable-column changes therefore holds, but the
"updates touching only other fields succeed" clause does not: those
updates are rejected too, contradicting the listener's own docstring,
which promises a `ValueError` only when an immutable column changed. -/
theorem actionlog_every_update_rejected (orig target : ActionRow) :
    updateActionRow orig target = .error loadHistoryAttributeError ∧
    applyUpdate orig target = orig :=
  ⟨rfl, rfl⟩

/-- A sample persisted row used by the witnesses. -/
def sampleRow : ActionRow :=
  { id := "a1".data, incident_id := none, session_id := none,
    action_type := "block_ip".data,
    command := "netsh advfirewall firewall add rule".data,
    parameters := none, reason := none, status := "pending".data,
    simulated := true, execution_output := none, reviewed_by := none,
    reject_reason := none, created_at := 5, reviewed_at := none,
    executed_at := none }

/-- C3 (code bug): `approve` and `reject` return 404 on a missing action
and 409 on a non-pending action (leaving the row unchanged), and
terminal statuses are never re-entered — but a pending action never
reaches `executed`, `failed` or `rejected`: the commit's UPDATE flush
raises `AttributeError` inside the broken immutability listener, the
transaction rolls back, and both endpoints surface a server error with
the row still pending, contradicting the claim's transition behaviour
(and the routers' own docstrings). -/
theorem approve_reject_state_machine_broken (row? : Option ActionRow)
    (current_user reason : Str) (allowReal : Bool) (os : OsRun) (now : Nat) :
    (row? = none →
      approve_action row? current_user allowReal os now
        = (.error ⟨404, "Action not found".data⟩, none) ∧
      reject_action row? current_user reason now
        = (.error ⟨404, "Action not found".data⟩, none)) ∧
    (∀ a, row? = some a → a.status ≠ "pending".data →
      (∃ d, approve_action row? current_user allowReal os now
          = (.error ⟨409, d⟩, some a)) ∧
      (∃ d, reject_action row? current_user reason now
          = (.error ⟨409, d⟩, some a))) ∧
    (∀ a, row? = some a → a.status = "pending".data →
      approve_action row? current_user allowReal os now
        = (.error ⟨500, loadHistoryAttributeError⟩, some a) ∧
      reject_action row? current_user reason now
        = (.error ⟨500, loadHistoryAttributeError⟩, some a)) ∧
    (∀ a, row? = some a →
      (a.status = "rejected".data ∨ a.status = "executed".data
        ∨ a.status = "failed".data) →
      (approve_action row? current_user allowReal os now).2 = some a ∧
      (reject_action row? current_user reason now).2 = some a) := by
  refine ⟨?_, ?_, ?_, ?_⟩
  · rintro rfl
    exact ⟨rfl, rfl⟩
  · rintro a rfl hs
    exact ⟨⟨"Action is already \x27".data ++ a.status
        ++ "\x27 — only \x27pending\x27 actions can be approved".data,
      by simp [approve_action, hs]⟩,
      ⟨"Action is already \x27".data ++ a.status
        ++ "\x27 — only \x27pending\x27 actions can be rejected".data,
      by simp [reject_action, hs]⟩⟩
  · rintro a rfl hs
    constructor
    · simp [approve_action, hs, updateActionRow,
        _prevent_immutable_field_modification]
    · simp [reject_action, hs, updateActionRow,
        _prevent_immutable_field_modification]
  · rintro a rfl hs
    have hne : a.status ≠ "pending".data := by
      rcases hs with h | h | h <;> rw [h] <;> decide
    simp [approve_action, reject_action, hne]

/-- C3 witness: on a concrete pending row, both endpoints hit the broken
listener — server error, row left pending. -/
theorem approve_reject_state_machine_broken_witness :
    approve_action (some sampleRow) "alice".data false ⟨true, []⟩ 7
      = (.error ⟨500, loadHistoryAttributeError⟩, some sampleRow) ∧
    reject_action (some sampleRow) "alice".data "too risky".data 7
      = (.error ⟨500, loadHistoryAttributeError⟩, some sampleRow) :=
  (approve_reject_state_machine_broken (some sampleRow) "alice".data
    "too risky".data false ⟨true, []⟩ 7).2.2.1 sampleRow rfl (by decide)

/-! ### Risk scorer lemmas -/

lemma rndHalfEven_intCast (n : ℤ) : rndHalfEven (n : ℚ) = n := by
  unfold rndHalfEven
  rw [Int.floor_intCast]
  norm_num

lemma pyRound_of_mul_eq_int (q : ℚ) (n : Nat) (m : ℤ) (h : q * 10 ^ n = (m : ℚ)) :
    pyRound q n = (m : ℚ) / 10 ^ n := by
  unfold pyRound
  rw [h, rndHalfEven_intCast]

lemma rndHalfEven_ge_floor (q : ℚ) : ⌊q⌋ ≤ rndHalfEven q := by
  unfold rndHalfEven
  split_ifs <;> omega

lemma rndHalfEven_le_half (q : ℚ) : (rndHalfEven q : ℚ) ≤ q + 1/2 := by
  unfold rndHalfEven
  have hf := Int.floor_le q
  split_ifs with h1 h2 h3
  · linarith
  · push_cast
    linarith [Int.sub_one_lt_floor q]
  · have : q - ⌊q⌋ = 1/2 := le_antisymm (not_lt.mp h2) (not_lt.mp h1)
    linarith
  · have : q - ⌊q⌋ = 1/2 := le_antisymm (not_lt.mp h2) (not_lt.mp h1)
    push_cast
    linarith

lemma pyRound2_bounds (q : ℚ) (h0 : 0 ≤ q) (h10 : q ≤ 10) :
    0 ≤ pyRound q 2 ∧ pyRound q 2 ≤ 10 := by
  unfold pyRound
  have e : ((10 : ℚ) ^ (2 : ℕ)) = 100 := by norm_num
  rw [e]
  have hx0 : 0 ≤ q * 100 := by positivity
  have hx1000 : q * 100 ≤ 1000 := by linarith
  have hlo : (0 : ℤ) ≤ rndHalfEven (q * 100) :=
    le_trans (Int.floor_nonneg.mpr hx0) (rndHalfEven_ge_floor (q * 100))
  have hhi : rndHalfEven (q * 100) ≤ 1000 := by
    have h1 := rndHalfEven_le_half (q * 100)
    have h3 : (rndHalfEven (q * 100) : ℚ) < 1001 := by linarith
    exact_mod_cast Int.lt_add_one_iff.mp (by exact_mod_cast h3)
  constructor
  · positivity
  · rw [div_le_iff₀ (by norm_num)]
    have hq : ((rndHalfEven (q * 100) : ℚ)) ≤ 1000 := by exact_mod_cast hhi
    linarith

/-- The severity table of §4.3, read off the spec's table (used to state
C5 against the implementation's dictionary lookup). -/
def specSeverityBase (severity : Str) : ℚ :=
  if pyUpper severity = "CRITICAL".data then 10
  else if pyUpper severity = "HIGH".data then 15/2
  else if pyUpper severity = "MEDIUM".data then 5
  else if pyUpper severity = "LOW".data then 5/2
  else if pyUpper severity = "INFO".data then 1/2
  else 1

/-- The source-reliability table of §4.3 (spec side of C5). -/
def specSourceWeight (source : Str) : ℚ :=
  if pyLower source = "snort".data then 9/10
  else if pyLower source = "ossec".data then 17/20
  else if pyLower source = "firewall".data then 3/4
  else if pyLower source = "simulator".data then 3/5
  else if pyLower source = "manual".data then 1/2
  else if pyLower source = "unknown".data then 2/5
  else 2/5

/-- Confidence of an optional match (0 when there is no match). -/
def specConfidence (m : Option MitreMatch) : ℚ :=
  match m with
  | some mm => mm.confidence
  | none => 0

lemma dictGet_severity_eq (k : Str) :
    dictGet _SEVERITY_BASE k 1 =
      if k = "CRITICAL".data then 10
      else if k = "HIGH".data then 15/2
      else if k = "MEDIUM".data then 5
      else if k = "LOW".data then 5/2
      else if k = "INFO".data then 1/2
      else 1 := by
  by_cases h1 : k = "CRITICAL".data
  · simp [dictGet, _SEVERITY_BASE, List.lookup, h1]
  · by_cases h2 : k = "HIGH".data
    · simp [dictGet, _SEVERITY_BASE, List.lookup, h1, h2]
    · by_cases h3 : k = "MEDIUM".data
      · simp [dictGet, _SEVERITY_BASE, List.lookup, h1, h2, h3]
      · by_cases h4 : k = "LOW".data
        · simp [dictGet, _SEVERITY_BASE, List.lookup, h1, h2, h3, h4]
        · by_cases h5 : k = "INFO".data
          · simp [dictGet, _SEVERITY_BASE, List.lookup, h1, h2, h3, h4, h5]
          · simp [dictGet, _SEVERITY_BASE, List.lookup, h1, h2, h3, h4, h5,
              beq_eq_false_iff_ne.mpr h1, beq_eq_false_iff_ne.mpr h2,
              beq_eq_false_iff_ne.mpr h3, beq_eq_false_iff_ne.mpr h4,
              beq_eq_false_iff_ne.mpr h5]

lemma dictGet_source_eq (k : Str) :
    dictGet _SOURCE_RELIABILITY k (2/5) =
      if k = "snort".data then 9/10
      else if k = "ossec".data then 17/20
      else if k = "firewall".data then 3/4
      else if k = "simulator".data then 3/5
      else if k = "manual".data then 1/2
      else if k = "unknown".data then 2/5
      else 2/5 := by
  by_cases h1 : k = "snort".data
  · simp [dictGet, _SOURCE_RELIABILITY, List.lookup, h1]
  · by_cases h2 : k = "ossec".data
    · simp [dictGet, _SOURCE_RELIABILITY, List.lookup, h1, h2]
    · by_cases h3 : k = "firewall".data
      · simp [dictGet, _SOURCE_RELIABILITY, List.lookup, h1, h2, h3]
      · by_cases h4 : k = "simulator".data
        · simp [dictGet, _SOURCE_RELIABILITY, List.lookup, h1, h2, h3, h4]
        · by_cases h5 : k = "manual".data
          · simp [dictGet, _SOURCE_RELIABILITY, List.lookup, h1, h2, h3, h4, h5]
          · by_cases h6 : k = "unknown".data
            · simp [dictGet, _SOURCE_RELIABILITY, List.lookup, h1, h2, h3, h4,
                h5, h6]
            · simp [dictGet, _SOURCE_RELIABILITY, List.lookup, h1, h2, h3, h4,
                h5, h6, beq_eq_false_iff_ne.mpr h1, beq_eq_false_iff_ne.mpr h2,
                beq_eq_false_iff_ne.mpr h3, beq_eq_false_iff_ne.mpr h4,
                beq_eq_false_iff_ne.mpr h5, beq_eq_false_iff_ne.mpr h6]

/-- The concrete MITRE match of spec scenario 3 (confidence 0.8). -/
def scenario3Match : MitreMatch :=
  { technique_id := "T1110".data, technique_name := "Brute Force".data,
    tactic := "Credential Access".data, description := [], confidence := 4/5 }

lemma score_scenario3_eval :
    score "CRITICAL".data "snort".data (some scenario3Match) = 46/5 := by
  have e1 : dictGet _SEVERITY_BASE (pyUpper "CRITICAL".data) 1 = 10 := by
    rw [dictGet_severity_eq]
    norm_num [show pyUpper "CRITICAL".data = "CRITICAL".data from by decide]
  have e2 : dictGet _SOURCE_RELIABILITY (pyLower "snort".data) (2/5) = 9/10 := by
    rw [dictGet_source_eq]
    norm_num [show pyLower "snort".data = "snort".data from by decide]
  have e3 : pyRound (46/5 : ℚ) 2 = 46/5 := by
    rw [pyRound_of_mul_eq_int (46/5 : ℚ) 2 920 (by norm_num)]
    norm_num
  simp only [score, e1, e2, scenario3Match]
  have harith :
      (10 : ℚ) * (1/2) + 4/5 * 10 * (3/10) + 9/10 * 10 * (1/5) = 46/5 := by
    norm_num
  rw [harith]
  have hclamp : min (max (46/5 : ℚ) 0) 10 = 46/5 := by
    rw [max_eq_left (by norm_num), min_eq_left (by norm_num)]
  rw [hclamp, e3]

/-- C4 counterexample: with severity CRITICAL, source the signature IDS
("snort"), and match confidence 0.8, the scorer does NOT return 8.8 (the
spec's own formula evaluates to 9.2). -/
theorem score_scenario3_ne_8_8 :
    score "CRITICAL".data "snort".data (some scenario3Match) ≠ 88/10 := by
  rw [score_scenario3_eval]
  norm_num

/-- C4 (amended): for severity CRITICAL, source "snort" (the signature
IDS) and match confidence 0.8, the scorer returns
round(10·0.5 + 0.8·10·0.3 + 0.9·10·0.2, 2) = 9.2 — not 8.8 — and the UI
label for that score is "CRITICAL". -/
theorem score_scenario3_is_9_2 :
    score "CRITICAL".data "snort".data (some scenario3Match) = 46/5 ∧
    pyRound ((10 : ℚ) * (1/2) + (4/5) * 10 * (3/10) + (9/10) * 10 * (1/5)) 2
      = 46/5 ∧
    score_label (score "CRITICAL".data "snort".data (some scenario3Match))
      = "CRITICAL".data := by
  refine ⟨score_scenario3_eval, ?_, ?_⟩
  · have harith :
        (10 : ℚ) * (1/2) + 4/5 * 10 * (3/10) + 9/10 * 10 * (1/5) = 46/5 := by
      norm_num
    rw [harith, pyRound_of_mul_eq_int (46/5 : ℚ) 2 920 (by norm_num)]
    norm_num
  · rw [score_scenario3_eval]
    unfold score_label
    rw [if_pos (by norm_num)]

/-- C5: for every severity, source and optional match, the score equals
the spec's clamped, two-decimal-rounded weighted sum over the §4.3
tables, and always lies in [0, 10]. -/
theorem score_weighted_sum_in_range (severity source : Str)
    (m : Option MitreMatch) :
    score severity source m
      = pyRound (min (max (specSeverityBase severity * (1/2)
          + specConfidence m * 10 * (3/10)
          + specSourceWeight source * 10 * (1/5)) 0) 10) 2 ∧
    0 ≤ score severity source m ∧ score severity source m ≤ 10 := by
  have heq : score severity source m
      = pyRound (min (max (specSeverityBase severity * (1/2)
          + specConfidence m * 10 * (3/10)
          + specSourceWeight source * 10 * (1/5)) 0) 10) 2 := by
    simp only [score, specSeverityBase, specSourceWeight, specConfidence,
      dictGet_severity_eq, dictGet_source_eq]
  refine ⟨heq, ?_⟩
  rw [heq]
  exact pyRound2_bounds _ (le_min (le_max_right _ _) (by norm_num))
    (min_le_right _ _)

/-! ### Parser lemmas (C6) -/

/-- The five admissible severities. -/
def severityValues : List Str :=
  ["CRITICAL".data, "HIGH".data, "MEDIUM".data, "LOW".data, "INFO".data]

lemma snort_sev_mem (n : Nat) :
    (_SNORT_PRIORITY_MAP.lookup n).getD "INFO".data ∈ severityValues := by
  by_cases h1 : n = 1
  · subst h1; decide
  · by_cases h2 : n = 2
    · subst h2; decide
    · by_cases h3 : n = 3
      · subst h3; decide
      · by_cases h4 : n = 4
        · subst h4; decide
        · have : List.lookup n _SNORT_PRIORITY_MAP = none := by
            simp [_SNORT_PRIORITY_MAP, List.lookup,
              beq_eq_false_iff_ne.mpr h1, beq_eq_false_iff_ne.mpr h2,
              beq_eq_false_iff_ne.mpr h3, beq_eq_false_iff_ne.mpr h4]
          rw [this]
          decide

lemma ossec_sev_mem (n : Nat) : _ossec_level_to_severity n ∈ severityValues := by
  unfold _ossec_level_to_severity
  split_ifs <;> decide

lemma keywords_sev_mem (t : Str) : _keywords_severity t ∈ severityValues := by
  rcases hf : _KEYWORD_SEVERITY.find? (fun kv => containsSub (pyLower t) kv.1)
    with _ | kv
  · simp only [_keywords_severity, hf]
    decide
  · simp only [_keywords_severity, hf]
    have hmem : kv ∈ _KEYWORD_SEVERITY := List.mem_of_find?_eq_some hf
    exact (by decide : ∀ p ∈ _KEYWORD_SEVERITY, p.2 ∈ severityValues) kv hmem

/-- C6 (amended): parsing never fails and every event's severity is one
of {CRITICAL, HIGH, MEDIUM, LOW, INFO}; whenever the signature-IDS fast
alert pattern does not match, a present port is at most 65535 — but the
fast-alert branch itself converts the matched digits unchecked, so its
port can exceed 65535 (and the [1, 65535] lower bound can also fail on
leading-zero digits in the fallback branch). -/
theorem parse_severity_valid_and_nonsnort_port_bounded (raw hint : Str) :
    (parse_log_line raw hint).severity ∈ severityValues ∧
    (research reSnortFast (pyStrip raw) = none →
      ∀ p, (parse_log_line raw hint).port = some p → p ≤ 65535) := by
  rcases hs : research reSnortFast (pyStrip raw) with _ | ⟨s1, s2, caps⟩
  · rcases ho : research reOssec (pyStrip raw) with _ | ⟨o1, o2, ocaps⟩
    · constructor
      · simp only [parse_log_line, hs, ho]
        exact keywords_sev_mem _
      · intro _ p hp
        simp only [parse_log_line, hs, ho] at hp
        rcases h3 : research rePort (pyStrip raw) with _ | ⟨p1, p2, pcaps⟩
        · simp only [_extract_port, h3] at hp
          cases hp
        · simp only [_extract_port, h3] at hp
          split_ifs at hp with hlt
          cases hp
          omega
    · constructor
      · simp only [parse_log_line, hs, ho]
        exact ossec_sev_mem _
      · intro _ p hp
        simp only [parse_log_line, hs, ho] at hp
        cases hp
  · constructor
    · simp only [parse_log_line, hs]
      exact snort_sev_mem _
    · intro hnone
      cases hnone

/-- C6 counterexample: a signature-IDS fast alert carrying destination
port digits 99999 parses to an event whose port is 99999 ∉ [1, 65535]. -/
theorem parse_snort_port_out_of_range :
    (parse_log_line
        "[**] [1:2:3] Test Alert [**] Priority: 2 1.2.3.4 -> 5.6.7.8:99999".data
        "snort".data).port = some 99999 ∧
    ¬ (∀ p, (parse_log_line
        "[**] [1:2:3] Test Alert [**] Priority: 2 1.2.3.4 -> 5.6.7.8:99999".data
        "snort".data).port = some p → 1 ≤ p ∧ p ≤ 65535) :=
  ⟨by decide, fun h => by have := (h 99999 (by decide)).2; omega⟩

/-- C6 witness: a generic firewall line parses with an admissible
severity and an in-range port. -/
theorem parse_severity_valid_witness :
    (parse_log_line "Suspicious probe from 8.8.8.8 on :8080".data
        "firewall".data).severity ∈ severityValues ∧
    (parse_log_line "Suspicious probe from 8.8.8.8 on :8080".data
        "firewall".data).port = some 8080 ∧ 8080 ≤ 65535 :=
  have h := parse_severity_valid_and_nonsnort_port_bounded
    "Suspicious probe from 8.8.8.8 on :8080".data "firewall".data
  ⟨h.1, by decide, h.2 (by decide) 8080 (by decide)⟩

/-! ### Propose guard (C7, C10) -/

/-- C7: whenever the dotted quad extracted from the incident's
`raw_log or title` is private/reserved (or unparseable — `_is_private_ip`
is also true then), `propose` fails with a 400 whose detail mentions
"private/reserved", no rows are created, and the generator is never
invoked (the outcome is independent of the generator). -/
theorem propose_blocks_private_ip (incident : IncidentRow) (sid : Option Str)
    (gen gen' : Str → Str → Option Str → Option Str → Option Str →
      List ProposedAction)
    (s : Str) (hf : firstIPv4 (proposeText incident) = some s)
    (hp : _is_private_ip s = true) :
    (∃ a b, propose_actions (some incident) sid gen
        = .error ⟨400, a ++ "private/reserved".data ++ b⟩) ∧
    propose_actions (some incident) sid gen
      = propose_actions (some incident) sid gen' := by
  have hred : ∀ g, propose_actions (some incident) sid g
      = .error ⟨400, privateIpDetail (some s)⟩ := by
    intro g
    simp only [propose_actions, hf]
    simp [hp]
  have hdetail : privateIpDetail (some s)
      = "Cannot generate firewall actions for ".data
          ++ "private/reserved".data
          ++ (" IP \x27".data ++ s
              ++ "\x27. Threat actor IPs must be publicly routable addresses.".data) := by
    have hlit : "Cannot generate firewall actions for private/reserved IP \x27".data
        = "Cannot generate firewall actions for ".data
            ++ "private/reserved".data ++ " IP \x27".data := by decide
    simp only [privateIpDetail, strOfOpt, hlit]
    simp [List.append_assoc]
  refine ⟨⟨"Cannot generate firewall actions for ".data,
      " IP \x27".data ++ s
        ++ "\x27. Threat actor IPs must be publicly routable addresses.".data, ?_⟩,
    by rw [hred gen, hred gen']⟩
  rw [hred gen, hdetail]

/-- Incident of spec scenario 4: the first dotted quad in `raw_log` is
the RFC1918 address 10.0.0.5. -/
def guardIncident : IncidentRow :=
  { id := "i1".data, raw_log := "Brute force from 10.0.0.5 on ssh".data,
    title := "Alert".data, severity := "HIGH".data, mitre_tactic := none,
    mitre_technique := none }

/-- C7 witness: an incident whose raw_log contains 10.0.0.5 is rejected
with the private/reserved 400, whatever the generator. -/
theorem propose_blocks_private_ip_witness :
    (∃ a b, propose_actions (some guardIncident) none generate_actions
        = .error ⟨400, a ++ "private/reserved".data ++ b⟩) ∧
    propose_actions (some guardIncident) none generate_actions
      = propose_actions (some guardIncident) none (fun _ _ _ _ _ => []) :=
  propose_blocks_private_ip guardIncident none generate_actions _
    "10.0.0.5".data (by decide) (by decide)

/-- C10: when neither `raw_log` nor `title` contains a dotted quad,
`propose` fails with the same private/reserved 400 (the absent source IP
is treated like an unusable one), creates no rows, and never invokes the
generator. -/
theorem propose_no_ip_same_guard (incident : IncidentRow) (sid : Option Str)
    (gen gen' : Str → Str → Option Str → Option Str → Option Str →
      List ProposedAction)
    (h1 : firstIPv4 incident.raw_log = none)
    (h2 : firstIPv4 incident.title = none) :
    propose_actions (some incident) sid gen
      = .error ⟨400, privateIpDetail none⟩ ∧
    (∃ a b, privateIpDetail none = a ++ "private/reserved".data ++ b) ∧
    propose_actions (some incident) sid gen
      = propose_actions (some incident) sid gen' := by
  have htext : firstIPv4 (proposeText incident) = none := by
    unfold proposeText
    split_ifs with ha hb
    · exact h1
    · exact h2
    · decide
  have hred : ∀ g, propose_actions (some incident) sid g
      = .error ⟨400, privateIpDetail none⟩ := by
    intro g
    simp only [propose_actions, htext]
    simp
  exact ⟨hred gen,
    ⟨"Cannot generate firewall actions for ".data,
     " IP \x27None\x27. Threat actor IPs must be publicly routable addresses.".data,
     by decide⟩,
    by rw [hred gen, hred gen']⟩

/-- An incident with no dotted quad anywhere. -/
def noIpIncident : IncidentRow :=
  { id := "i2".data, raw_log := "malware beacon detected on host".data,
    title := "Generic alert".data, severity := "HIGH".data,
    mitre_tactic := none, mitre_technique := none }

/-- C10 witness. -/
theorem propose_no_ip_same_guard_witness :
    propose_actions (some noIpIncident) none generate_actions
      = .error ⟨400, privateIpDetail none⟩ ∧
    (∃ a b, privateIpDetail none = a ++ "private/reserved".data ++ b) ∧
    propose_actions (some noIpIncident) none generate_actions
      = propose_actions (some noIpIncident) none (fun _ _ _ _ _ => []) :=
  propose_no_ip_same_guard noIpIncident none generate_actions _
    (by decide) (by decide)

/-! ### Generator allow-list (C9) -/

lemma rstrip_append_of_not_all_space (s t : Str) (h : t.all isPySpace = false) :
    rstrip (s ++ t) = s ++ rstrip t := by
  unfold rstrip
  rw [List.reverse_append, List.dropWhile_append]
  have hne : (t.reverse.dropWhile isPySpace).isEmpty = false := by
    rw [Bool.eq_false_iff]
    intro hemp
    obtain ⟨x, hx, hpx⟩ := List.all_eq_false.mp h
    exact hpx (List.dropWhile_eq_nil_iff.mp (List.isEmpty_iff.mp hemp) x
      (List.mem_reverse.mpr hx))
  rw [hne]
  simp

lemma rstrip_append_of_all_space (s t : Str) (h : t.all isPySpace = true) :
    rstrip (s ++ t) = rstrip s := by
  unfold rstrip
  rw [List.reverse_append, List.dropWhile_append]
  have hemp : (t.reverse.dropWhile isPySpace).isEmpty = true := by
    rw [List.isEmpty_iff, List.dropWhile_eq_nil_iff]
    intro x hx
    exact List.all_eq_true.mp h x (List.mem_reverse.mp hx)
  rw [hemp]
  simp

/-- Stripping a string that starts and ends with non-whitespace prefixed
to arbitrary text never touches the leading literal. -/
lemma pyStrip_append_lit (lit t : Str) (c0 : Char) (r0 : Str)
    (hc : lit = c0 :: r0) (h0 : isPySpace c0 = false)
    (rl : Str) (cl : Char) (hl : lit = rl ++ [cl])
    (hls : isPySpace cl = false) :
    ∃ u, pyStrip (lit ++ t) = lit ++ u := by
  unfold pyStrip
  have hdw : (lit ++ t).dropWhile isPySpace = lit ++ t := by
    rw [hc]
    simp [List.dropWhile_cons, h0]
  rw [hdw]
  by_cases hsp : t.all isPySpace
  · rw [rstrip_append_of_all_space _ _ hsp]
    have hcl : rstrip [cl] = [cl] := by
      unfold rstrip
      simp [List.dropWhile_cons, hls]
    have hstr : rstrip lit = lit := by
      rw [hl, rstrip_append_of_not_all_space _ _ (by simp [hls]), hcl]
    exact ⟨[], by rw [hstr]; simp⟩
  · rw [rstrip_append_of_not_all_space _ _ (Bool.eq_false_iff.mpr hsp)]
    exact ⟨rstrip t, rfl⟩

/-- Any command of the form `lit ++ t`, where the literal `lit` starts
and ends with non-whitespace and lower-cases to something starting with
an allow-listed prefix, passes `_is_allowed`. -/
lemma is_allowed_append (p lit t : Str) (hp : p ∈ _COMMAND_ALLOWLIST)
    (hpre : (pyLower p).isPrefixOf (pyLower lit) = true)
    (c0 : Char) (r0 : Str) (hc : lit = c0 :: r0) (h0 : isPySpace c0 = false)
    (rl : Str) (cl : Char) (hl : lit = rl ++ [cl])
    (hls : isPySpace cl = false) :
    _is_allowed (lit ++ t) = true := by
  obtain ⟨u, hu⟩ := pyStrip_append_lit lit t c0 r0 hc h0 rl cl hl hls
  unfold _is_allowed
  apply List.any_eq_true.mpr
  refine ⟨p, hp, ?_⟩
  rw [hu, List.isPrefixOf_iff_prefix]
  unfold pyLower
  rw [List.map_append]
  exact (List.isPrefixOf_iff_prefix.mp hpre).trans (List.prefix_append _ _)

lemma allowed_block_ip (ip reason mitre : Str) :
    _is_allowed (_block_ip ip reason mitre).command = true := by
  have hcmd : (_block_ip ip reason mitre).command
      = "netsh advfirewall firewall add rule name=\"CyberTwin-Block-".data
          ++ (ip ++ ("\" dir=in action=block remoteip=".data ++ ip)) := by
    simp [_block_ip, List.append_assoc]
  rw [hcmd]
  exact is_allowed_append "netsh advfirewall firewall".data _ _ (by decide)
    (by decide) 'n'
    "etsh advfirewall firewall add rule name=\"CyberTwin-Block-".data
    (by decide) (by decide)
    "netsh advfirewall firewall add rule name=\"CyberTwin-Block".data '-'
    (by decide) (by decide)

lemma allowed_add_firewall_rule (ip : Str) (port : Nat) (reason mitre : Str) :
    _is_allowed (_add_firewall_rule ip port reason mitre).command = true := by
  have hcmd : (_add_firewall_rule ip port reason mitre).command
      = "netsh advfirewall firewall add rule name=\"CyberTwin-Port-".data
          ++ (natToStr port ++ ("\" dir=in action=block remoteip=".data
              ++ ip ++ " localport=".data ++ natToStr port
              ++ " protocol=TCP".data)) := by
    simp [_add_firewall_rule, List.append_assoc]
  rw [hcmd]
  exact is_allowed_append "netsh advfirewall firewall".data _ _ (by decide)
    (by decide) 'n'
    "etsh advfirewall firewall add rule name=\"CyberTwin-Port-".data
    (by decide) (by decide)
    "netsh advfirewall firewall add rule name=\"CyberTwin-Port".data '-'
    (by decide) (by decide)

lemma allowed_isolate_host (ip reason mitre : Str) :
    _is_allowed (_isolate_host ip reason mitre).command = true := by
  have hcmd : (_isolate_host ip reason mitre).command
      = "netsh advfirewall firewall add rule name=\"CyberTwin-Isolate-".data
          ++ (ip ++ ("\" dir=in action=block remoteip=any localip=".data
              ++ ip)) := by
    simp [_isolate_host, List.append_assoc]
  rw [hcmd]
  exact is_allowed_append "netsh advfirewall firewall".data _ _ (by decide)
    (by decide) 'n'
    "etsh advfirewall firewall add rule name=\"CyberTwin-Isolate-".data
    (by decide) (by decide)
    "netsh advfirewall firewall add rule name=\"CyberTwin-Isolate".data '-'
    (by decide) (by decide)

lemma allowed_run_scan (ip reason mitre : Str) :
    _is_allowed (_run_scan ip reason mitre).command = true := by
  have hsep : "nmap -sV -O --top-ports 1000 ".data
      = "nmap -sV -O --top-ports 1000".data ++ [' '] := by decide
  have hcmd : (_run_scan ip reason mitre).command
      = "nmap -sV -O --top-ports 1000".data ++ (' ' :: ip) := by
    simp [_run_scan, hsep, List.append_assoc]
  rw [hcmd]
  exact is_allowed_append "nmap ".data _ _ (by decide) (by decide) 'n'
    "map -sV -O --top-ports 1000".data (by decide) (by decide)
    "nmap -sV -O --top-ports 100".data '0' (by decide) (by decide)

lemma tacticActions_allowed (mt : Option Str) (ip mitre : Str) :
    ∀ a ∈ tacticActions mt ip mitre, _is_allowed a.command = true := by
  intro a ha
  unfold tacticActions at ha
  split_ifs at ha <;>
    simp only [List.mem_cons, List.not_mem_nil, or_false] at ha
  · rcases ha with rfl | rfl
    · exact allowed_block_ip ..
    · exact allowed_run_scan ..
  · rcases ha with rfl | rfl
    · exact allowed_block_ip ..
    · exact allowed_add_firewall_rule ..
  · rcases ha with rfl | rfl
    · exact allowed_isolate_host ..
    · exact allowed_block_ip ..
  · rcases ha with rfl | rfl
    · exact allowed_block_ip ..
    · exact allowed_add_firewall_rule ..
  · rcases ha with rfl | rfl
    · exact allowed_isolate_host ..
    · exact allowed_block_ip ..
  · rcases ha with rfl | rfl
    · exact allowed_isolate_host ..
    · exact allowed_block_ip ..
  · rcases ha with rfl | rfl
    · exact allowed_block_ip ..
    · exact allowed_run_scan ..
  · rcases ha with rfl | rfl
    · exact allowed_run_scan ..
    · exact allowed_block_ip ..
  · rcases ha with rfl
    exact allowed_block_ip ..

/-- The post-dispatch step of `generate_actions` (CRITICAL prepend) also
only yields allow-listed commands, for any MITRE context string. -/
lemma gen_core_allowed (mt : Option Str) (ip ctx severity : Str) :
    ∀ a ∈ (match tacticActions mt ip ctx with
           | [] => tacticActions mt ip ctx
           | a0 :: rest =>
              if severity = "CRITICAL".data
                  ∧ a0.action_type ≠ "isolate_host".data then
                _isolate_host ip
                  "CRITICAL severity — immediate isolation recommended.".data
                  ctx :: a0 :: rest
              else a0 :: rest),
      _is_allowed a.command = true := by
  intro a ha
  rcases hta : tacticActions mt ip ctx with _ | ⟨a0, rest⟩
  · simp only [hta] at ha
    simp at ha
  · simp only [hta] at ha
    split_ifs at ha with hcrit
    · rcases List.mem_cons.mp ha with rfl | hmem
      · exact allowed_isolate_host ..
      · exact tacticActions_allowed mt ip ctx a (hta ▸ hmem)
    · exact tacticActions_allowed mt ip ctx a (hta ▸ ha)

/-- C9: every action produced by the generator carries a command that
passes the Execution Engine's allow-list prefix check. -/
theorem generate_actions_commands_allowlisted (src_ip severity : Str)
    (mitre_tactic mitre_id mitre_technique : Option Str) :
    ∀ a ∈ generate_actions src_ip severity mitre_tactic mitre_id
        mitre_technique,
      _is_allowed a.command = true := by
  intro a ha
  unfold generate_actions at ha
  by_cases h1 : (severity = "INFO".data ∨ severity = "LOW".data)
      ∧ ¬ optTruthy mitre_tactic
  · rw [if_pos h1] at ha
    simp at ha
  · rw [if_neg h1] at ha
    by_cases h2 : src_ip = [] ∨ src_ip = "0.0.0.0".data
        ∨ src_ip = "localhost".data ∨ src_ip = "127.0.0.1".data
    · rw [if_pos h2] at ha
      simp at ha
    · rw [if_neg h2] at ha
      exact gen_core_allowed mitre_tactic src_ip _ severity a ha

/-- C9 witness: the first action generated for scenario 5 (CRITICAL
credential-access incident) passes the allow-list. -/
theorem generate_actions_commands_allowlisted_witness :
    _is_allowed (_isolate_host "45.33.32.156".data
        "CRITICAL severity — immediate isolation recommended.".data
        "[T1110] Brute Force".data).command = true :=
  generate_actions_commands_allowlisted "45.33.32.156".data "CRITICAL".data
    (some "Credential Access".data) (some "T1110".data)
    (some "Brute Force".data) _ (by decide)

/-! ### Classifier lemmas (C8) -/

lemma techScore_nonneg (t : Technique) (lower : Str) : 0 ≤ techScore t lower := by
  unfold techScore
  exact le_min
    (div_nonneg (Nat.cast_nonneg _) (le_trans zero_le_one (le_max_right _ _)))
    zero_le_one

lemma techScore_eq_zero (t : Technique) (lower : Str)
    (h : techHits t lower = 0) : techScore t lower = 0 := by
  unfold techScore
  rw [h]
  simp

lemma techScore_pos (t : Technique) (lower : Str)
    (h : techHits t lower ≠ 0) : 0 < techScore t lower := by
  unfold techScore
  refine lt_min (div_pos ?_ ?_) zero_lt_one
  · exact_mod_cast Nat.pos_of_ne_zero h
  · exact lt_of_lt_of_le zero_lt_one (le_max_right _ _)

/-- Behaviour of the `classify` fold: either no technique with keywords
scored a hit (accumulator untouched), or the accumulator holds the first
technique attaining the maximal score. -/
lemma classify_foldl_spec (lower : Str) (ts : List Technique) :
    (ts.foldl (classifyStep lower) (0, none)
        = ((0 : ℚ), (none : Option Technique))
      ∧ ∀ u ∈ ts, u.keywords ≠ [] → techHits u lower = 0)
    ∨ (∃ i t, ts.get? i = some t ∧ t.keywords ≠ [] ∧ techHits t lower ≠ 0
        ∧ ts.foldl (classifyStep lower) (0, none) = (techScore t lower, some t)
        ∧ (∀ j u, j < i → ts.get? j = some u → u.keywords ≠ [] →
            techScore u lower < techScore t lower)
        ∧ (∀ u ∈ ts, u.keywords ≠ [] →
            techScore u lower ≤ techScore t lower)) := by
  induction ts using List.reverseRecOn with
  | nil => exact Or.inl ⟨rfl, by simp⟩
  | append_singleton ts t ih =>
    rw [List.foldl_append]
    simp only [List.foldl_cons, List.foldl_nil]
    rcases ih with ⟨hacc, hall⟩ | ⟨i, t0, hget, hkw, hhits, hacc, hbef, hle⟩
    · rw [hacc]
      by_cases hk : t.keywords = []
      · refine Or.inl ⟨by simp [classifyStep, hk], ?_⟩
        intro u hu hukw
        rcases List.mem_append.mp hu with hu | hu
        · exact hall u hu hukw
        · rw [List.mem_singleton.mp hu] at hukw
          exact absurd hk hukw
      · by_cases hh : techHits t lower = 0
        · refine Or.inl ⟨by simp [classifyStep, hk, hh], ?_⟩
          intro u hu hukw
          rcases List.mem_append.mp hu with hu | hu
          · exact hall u hu hukw
          · rw [List.mem_singleton.mp hu]
            exact hh
        · refine Or.inr ⟨ts.length, t, List.get?_concat_length ts t, hk, hh,
            by simp [classifyStep, hk, hh, techScore_pos t lower hh], ?_, ?_⟩
          · intro j u hj hgetj hukw
            rw [List.get?_append hj] at hgetj
            rw [techScore_eq_zero u lower (hall u (List.get?_mem hgetj) hukw)]
            exact techScore_pos t lower hh
          · intro u hu hukw
            rcases List.mem_append.mp hu with hu | hu
            · rw [techScore_eq_zero u lower (hall u hu hukw)]
              exact (techScore_pos t lower hh).le
            · rw [List.mem_singleton.mp hu]
    · rw [hacc]
      have hi : i < ts.length := (List.get?_eq_some.mp hget).1
      by_cases hk : t.keywords = []
      · refine Or.inr ⟨i, t0, ?_, hkw, hhits, by simp [classifyStep, hk], ?_, ?_⟩
        · rw [List.get?_append hi]
          exact hget
        · intro j u hj hgetj hukw
          rw [List.get?_append (lt_trans hj hi)] at hgetj
          exact hbef j u hj hgetj hukw
        · intro u hu hukw
          rcases List.mem_append.mp hu with hu | hu
          · exact hle u hu hukw
          · rw [List.mem_singleton.mp hu] at hukw
            exact absurd hk hukw
      · by_cases hh : techHits t lower = 0
        · refine Or.inr ⟨i, t0, ?_, hkw, hhits,
            by simp [classifyStep, hk, hh], ?_, ?_⟩
          · rw [List.get?_append hi]
            exact hget
          · intro j u hj hgetj hukw
            rw [List.get?_append (lt_trans hj hi)] at hgetj
            exact hbef j u hj hgetj hukw
          · intro u hu hukw
            rcases List.mem_append.mp hu with hu | hu
            · exact hle u hu hukw
            · rw [List.mem_singleton.mp hu, techScore_eq_zero t lower hh]
              exact (techScore_pos t0 lower hhits).le
        · by_cases hlt : techScore t0 lower < techScore t lower
          · refine Or.inr ⟨ts.length, t, List.get?_concat_length ts t, hk, hh,
              by simp [classifyStep, hk, hh, hlt], ?_, ?_⟩
            · intro j u hj hgetj hukw
              rw [List.get?_append hj] at hgetj
              exact lt_of_le_of_lt (hle u (List.get?_mem hgetj) hukw) hlt
            · intro u hu hukw
              rcases List.mem_append.mp hu with hu | hu
              · exact (hle u hu hukw).trans hlt.le
              · rw [List.mem_singleton.mp hu]
          · refine Or.inr ⟨i, t0, ?_, hkw, hhits,
              by simp [classifyStep, hk, hh, hlt], ?_, ?_⟩
            · rw [List.get?_append hi]
              exact hget
            · intro j u hj hgetj hukw
              rw [List.get?_append (lt_trans hj hi)] at hgetj
              exact hbef j u hj hgetj hukw
            · intro u hu hukw
              rcases List.mem_append.mp hu with hu | hu
              · exact hle u hu hukw
              · rw [List.mem_singleton.mp hu]
                exact not_lt.mp hlt

/-- C8 (amended): `classify` scores every technique with non-empty
keywords by `min(hits / max(len(keywords)·0.4, 1), 1)`, keeps the first
technique attaining the maximal score, and returns its match — with
`confidence = round(score, 3)`, the 3-decimal rounding of the score
rather than the exact score — exactly when that score is ≥ 0.15,
returning `None` otherwise. -/
theorem classify_best_first_rounded (ts : List Technique) (text : Str) :
    (∀ m, classify ts text = some m →
      ∃ i t, ts.get? i = some t ∧ t.keywords ≠ [] ∧
        m = { technique_id := t.id, technique_name := t.name,
              tactic := t.tactic, description := t.description,
              confidence := pyRound (techScore t (pyLower text)) 3 } ∧
        3/20 ≤ techScore t (pyLower text) ∧
        (∀ j u, j < i → ts.get? j = some u → u.keywords ≠ [] →
          techScore u (pyLower text) < techScore t (pyLower text)) ∧
        (∀ u ∈ ts, u.keywords ≠ [] →
          techScore u (pyLower text) ≤ techScore t (pyLower text))) ∧
    (classify ts text = none →
      text = [] ∨ ∀ u ∈ ts, u.keywords ≠ [] →
        techScore u (pyLower text) < 3/20) := by
  by_cases hguard : text = [] ∨ ts = []
  · have hnone : classify ts text = none := by
      unfold classify
      rw [if_pos hguard]
    constructor
    · intro m hm
      rw [hnone] at hm
      cases hm
    · intro _
      rcases hguard with h | h
      · exact Or.inl h
      · subst h
        exact Or.inr (by simp)
  · rcases classify_foldl_spec (pyLower text) ts with
      ⟨hacc, hall⟩ | ⟨i, t0, hget, hkw, hhits, hacc, hbef, hle⟩
    · have hnone : classify ts text = none := by
        unfold classify
        rw [if_neg hguard]
        simp [hacc]
      constructor
      · intro m hm
        rw [hnone] at hm
        cases hm
      · intro _
        refine Or.inr fun u hu hukw => ?_
        rw [techScore_eq_zero u _ (hall u hu hukw)]
        norm_num
    · by_cases hth : (3 : ℚ)/20 ≤ techScore t0 (pyLower text)
      · have hsome : classify ts text
            = some { technique_id := t0.id, technique_name := t0.name,
                     tactic := t0.tactic, description := t0.description,
                     confidence := pyRound (techScore t0 (pyLower text)) 3 } := by
          unfold classify
          rw [if_neg hguard]
          simp [hacc, hth]
        constructor
        · intro m hm
          rw [hsome] at hm
          injection hm with h
          subst h
          exact ⟨i, t0, hget, hkw, rfl, hth, hbef, hle⟩
        · intro hn
          rw [hsome] at hn
          cases hn
      · have hnone : classify ts text = none := by
          unfold classify
          rw [if_neg hguard]
          simp [hacc, hth]
        constructor
        · intro m hm
          rw [hnone] at hm
          cases hm
        · intro _
          exact Or.inr fun u hu hukw =>
            lt_of_le_of_lt (hle u hu hukw) (not_le.mp hth)

/-- A six-keyword technique whose score on a one-hit text is 5/12,
which is not representable in three decimals. -/
def demoTechnique : Technique :=
  { id := "T1".data, name := "Demo".data, tactic := "Tac".data,
    description := [],
    keywords := ["aaa".data, "bbb".data, "ccc".data, "ddd".data,
                 "eee".data, "fff".data] }

lemma demo_techScore :
    techScore demoTechnique (pyLower "aaa here".data) = 5/12 := by
  have hhits : techHits demoTechnique (pyLower "aaa here".data) = 1 := by
    decide
  unfold techScore
  rw [hhits]
  have hlen : ((demoTechnique.keywords.length : ℚ)) = 6 := by
    norm_num [demoTechnique]
  rw [hlen]
  norm_num

lemma demo_round : pyRound ((5 : ℚ)/12) 3 = 417/1000 := by
  unfold pyRound rndHalfEven
  have hfl : ⌊(5/12 : ℚ) * 10 ^ (3 : ℕ)⌋ = 416 := by norm_num
  rw [hfl]
  rw [if_neg (by norm_num), if_pos (by norm_num)]
  norm_num

lemma demo_classify_eval :
    classify [demoTechnique] "aaa here".data
      = some { technique_id := "T1".data, technique_name := "Demo".data,
               tactic := "Tac".data, description := [],
               confidence := 417/1000 } := by
  have hhits : techHits demoTechnique (pyLower "aaa here".data) = 1 := by
    decide
  have hstep : classifyStep (pyLower "aaa here".data) (0, none) demoTechnique
      = (5/12, some demoTechnique) := by
    unfold classifyStep
    rw [demo_techScore]
    rw [if_neg (show ¬ demoTechnique.keywords = [] by decide)]
    rw [if_neg (show ¬ techHits demoTechnique (pyLower "aaa here".data) = 0 by
      decide)]
    rw [if_pos (show ((0 : ℚ), (none : Option Technique)).1 < 5/12 by norm_num)]
  unfold classify
  rw [if_neg (by decide)]
  simp only [List.foldl_cons, List.foldl_nil, hstep]
  simp [demoTechnique, demo_round, (by norm_num : (3 : ℚ)/20 ≤ 5/12)]

/-- C8 counterexample: on a one-technique corpus with six keywords and a
one-hit text, the returned confidence is 0.417 = round(5/12, 3), which
differs from the exact score 5/12 the claim asserts. -/
theorem classify_confidence_ne_score :
    classify [demoTechnique] "aaa here".data
      = some { technique_id := "T1".data, technique_name := "Demo".data,
               tactic := "Tac".data, description := [],
               confidence := 417/1000 } ∧
    (417 : ℚ)/1000 ≠ techScore demoTechnique (pyLower "aaa here".data) := by
  refine ⟨demo_classify_eval, ?_⟩
  rw [demo_techScore]
  norm_num

/-- C8 witness: the characterization applied to the demo corpus. -/
theorem classify_best_first_rounded_witness :
    ∃ i t, [demoTechnique].get? i = some t ∧ t.keywords ≠ [] ∧
      ({ technique_id := "T1".data, technique_name := "Demo".data,
         tactic := "Tac".data, description := [],
         confidence := 417/1000 } : MitreMatch)
        = { technique_id := t.id, technique_name := t.name,
            tactic := t.tactic, description := t.description,
            confidence := pyRound (techScore t (pyLower "aaa here".data)) 3 } ∧
      3/20 ≤ techScore t (pyLower "aaa here".data) ∧
      (∀ j u, j < i → [demoTechnique].get? j = some u → u.keywords ≠ [] →
        techScore u (pyLower "aaa here".data)
          < techScore t (pyLower "aaa here".data)) ∧
      (∀ u ∈ [demoTechnique], u.keywords ≠ [] →
        techScore u (pyLower "aaa here".data)
          ≤ techScore t (pyLower "aaa here".data)) :=
  (classify_best_first_rounded [demoTechnique] "aaa here".data).1 _
    demo_classify_eval

end CyberTwin
